import Mathlib

/-!
Verification of the gauge-pybuild-plugin core module
(`src/gauge_pybuild_plugin/core.py` together with the configuration loader
in `src/gauge_pybuild_plugin/cli.py`).

The Python code is shallowly embedded: the pydantic `GaugeConfig` model
becomes a Lean structure, Python truthiness of optional strings is made
explicit, the filesystem, the executable search path, the ambient process
environment, the TOML loader and the subprocess spawner are passed in as
explicit function parameters, and fallible operations return `Except`.
-/

namespace GaugePlugin

/-- Equality on `Except` results is decidable componentwise, so concrete
runs of the embedded operations can be checked by evaluation. -/
instance {ε α : Type} [DecidableEq ε] [DecidableEq α] : DecidableEq (Except ε α)
  | Except.ok a, Except.ok b =>
    if h : a = b then Decidable.isTrue (by rw [h])
    else Decidable.isFalse (fun he => h (Except.noConfusion he id))
  | Except.ok _, Except.error _ => Decidable.isFalse (fun he => Except.noConfusion he)
  | Except.error _, Except.ok _ => Decidable.isFalse (fun he => Except.noConfusion he)
  | Except.error e, Except.error f =>
    if h : e = f then Decidable.isTrue (by rw [h])
    else Decidable.isFalse (fun he => h (Except.noConfusion he id))

/-- Python truthiness of an `Optional[str]`: `None` and `""` are falsy. -/
def truthyS : Option String → Bool
  | none => false
  | some s => !(s == "")

/-- Worker for `pySplit`: walk the characters, accumulating the current
word in reverse; whitespace closes the word, empty words are dropped. -/
def splitWs : List Char → List Char → List String
  | [], acc => if acc.isEmpty then [] else [String.mk acc.reverse]
  | c :: cs, acc =>
    if c.isWhitespace then
      if acc.isEmpty then splitWs cs [] else String.mk acc.reverse :: splitWs cs []
    else splitWs cs (c :: acc)

/-- Python `str.split()` with no argument: split on runs of whitespace and
drop empty pieces. -/
def pySplit (s : String) : List String :=
  splitWs s.data []

/-- The `GaugeConfig` pydantic model of `core.py` (fields and defaults).
`environment_variables` (a Python `dict`) is modelled as an association
list with distinct keys looked up by first match. -/
structure GaugeConfig where
  specs_dir : Option String := some "specs"
  tags : Option String := none
  in_parallel : Bool := false
  nodes : Int := 1
  env : Option String := none
  additional_flags : Option String := none
  project_dir : Option String := none
  gauge_root : Option String := none
  environment_variables : List (String × String) := []
  deriving Repr, DecidableEq

/-- `GaugeConfig.to_command_args` from `core.py`, transcribed statement by
statement: a growing `args` list with one conditional block per field. -/
def GaugeConfig.to_command_args (c : GaugeConfig) : List String :=
  let args : List String := []
  let args := if truthyS c.tags then args ++ ["--tags", c.tags.getD ""] else args
  let args :=
    if c.in_parallel then
      let args := args ++ ["--parallel"]
      if c.nodes > 1 then args ++ ["--n", toString c.nodes] else args
    else args
  let args := if truthyS c.env then args ++ ["--env", c.env.getD ""] else args
  let args :=
    if truthyS c.additional_flags then args ++ pySplit (c.additional_flags.getD "")
    else args
  let args := if truthyS c.specs_dir then args ++ [c.specs_dir.getD ""] else args
  args

/-- The argument list as the specification describes it: the concatenation,
in a fixed order, of five independent segments, each conditional on the
corresponding field. -/
def specCommandArgs (c : GaugeConfig) : List String :=
  (if truthyS c.tags then ["--tags", c.tags.getD ""] else [])
    ++ (if c.in_parallel then
          ["--parallel"] ++ (if c.nodes > 1 then ["--n", toString c.nodes] else [])
        else [])
    ++ (if truthyS c.env then ["--env", c.env.getD ""] else [])
    ++ (if truthyS c.additional_flags then pySplit (c.additional_flags.getD "") else [])
    ++ (if truthyS c.specs_dir then [c.specs_dir.getD ""] else [])

/-- The configuration of the spec scenario:
tags smoke, parallel with 4 nodes, env dev, two additional flags,
default specs directory. -/
def smokeConfig : GaugeConfig :=
  { specs_dir := some "specs"
    tags := some "smoke"
    in_parallel := true
    nodes := 4
    env := some "dev"
    additional_flags := some "--verbose --simple-console" }

/-- `GaugeConfig` construction (pydantic `GaugeConfig(**fields)` with its two
validators): `validate_nodes` rejects `nodes < 1`; `validate_specs_dir` only
prints a warning when the directory is missing. The filesystem is the
explicit predicate `fs`; the result pairs the constructed value (or the
validation error) with the emitted warnings. -/
def mkGaugeConfig (fs : String → Bool) (c : GaugeConfig) :
    Except String GaugeConfig × List String :=
  let warnings :=
    if truthyS c.specs_dir && !(fs (c.specs_dir.getD "")) then
      ["Warning: specs directory " ++ c.specs_dir.getD "" ++ " does not exist"]
    else []
  if c.nodes < 1 then (Except.error "nodes must be at least 1", warnings)
  else (Except.ok c, warnings)

/-- The path `Path(gauge_root) / "bin" / "gauge"` built by
`_find_gauge_executable`. -/
def gaugeRootPath (c : GaugeConfig) : String :=
  c.gauge_root.getD "" ++ "/bin/gauge"

/-- The error taxonomy of the executor: the two `RuntimeError` cases of
`core.py`, kept apart by constructor. -/
inductive GaugeError where
  | executableNotFound (msg : String)
  | executionError (msg : String)
  deriving Repr, DecidableEq

/-- The message of the executable-not-found failure in `core.py`. -/
def gaugeNotFoundMsg : String :=
  "Gauge executable not found. Please install Gauge or set gauge_root in configuration."

/-- `GaugeTask._find_gauge_executable`: prefer `<gauge_root>/bin/gauge` when
`gauge_root` is truthy and that path exists, else `shutil.which("gauge")`
(the parameter `which`), else fail. -/
def findGaugeExecutable (fs : String → Bool) (which : String → Option String)
    (c : GaugeConfig) : Except GaugeError String :=
  let fromRoot : Option String :=
    if truthyS c.gauge_root then
      if fs (gaugeRootPath c) then some (gaugeRootPath c) else none
    else none
  match fromRoot with
  | some p => Except.ok p
  | none =>
    match which "gauge" with
    | some exe => Except.ok exe
    | none => Except.error (GaugeError.executableNotFound gaugeNotFoundMsg)

/-- `GaugeTask._run_command`: spawn the argv (the parameter `spawn` returns
the exit code, or the spawn-failure message); a spawn failure becomes the
`ExecutionError`-style `RuntimeError`, an exit code is returned as is. -/
def runCommand (spawn : List String → Except String Int) (argv : List String) :
    Except GaugeError Int :=
  match spawn argv with
  | Except.ok code => Except.ok code
  | Except.error e => Except.error (GaugeError.executionError ("Failed to execute command: " ++ e))

/-- The argv built by `GaugeTask.run`: `[exe, "run"]` plus the configuration
arguments; when explicit `specs` are given (a non-empty list), the first
occurrence of the `specs_dir` token is removed (`list.remove`) if present,
then the specs are appended. -/
def runArgv (exe : String) (c : GaugeConfig) (specs : List String) : List String :=
  let command := [exe, "run"] ++ c.to_command_args
  if specs.isEmpty then command
  else
    let command :=
      match c.specs_dir with
      | some sd => if sd ∈ command then command.erase sd else command
      | none => command
    command ++ specs

/-- The argv built by `GaugeTask.validate`. -/
def validateArgv (exe : String) (c : GaugeConfig) : List String :=
  let command := [exe, "validate"]
  if truthyS c.specs_dir then command ++ [c.specs_dir.getD ""] else command

/-- The argv built by `GaugeTask.format_specs`. -/
def formatArgv (exe : String) (c : GaugeConfig) : List String :=
  let command := [exe, "format"]
  if truthyS c.specs_dir then command ++ [c.specs_dir.getD ""] else command

/-- The argv built by `GaugeTask.install_plugin`. -/
def installArgv (exe plugin_name : String) (version : Option String) : List String :=
  let command := [exe, "install", plugin_name]
  if truthyS version then command ++ ["--version", version.getD ""] else command

/-- The `GaugeTask` executor: one configuration reference. -/
structure GaugeTask where
  config : GaugeConfig := {}
  deriving Repr, DecidableEq

/-- `GaugeTask.run`: resolve the executable, spawn, report exit code 0. -/
def GaugeTask.run (fs : String → Bool) (which : String → Option String)
    (spawn : List String → Except String Int) (t : GaugeTask)
    (specs : List String) : Except GaugeError Bool := do
  let exe ← findGaugeExecutable fs which t.config
  let code ← runCommand spawn (runArgv exe t.config specs)
  pure (code == 0)

/-- `GaugeTask.validate`. -/
def GaugeTask.validate (fs : String → Bool) (which : String → Option String)
    (spawn : List String → Except String Int) (t : GaugeTask) :
    Except GaugeError Bool := do
  let exe ← findGaugeExecutable fs which t.config
  let code ← runCommand spawn (validateArgv exe t.config)
  pure (code == 0)

/-- `GaugeTask.format_specs`. -/
def GaugeTask.format_specs (fs : String → Bool) (which : String → Option String)
    (spawn : List String → Except String Int) (t : GaugeTask) :
    Except GaugeError Bool := do
  let exe ← findGaugeExecutable fs which t.config
  let code ← runCommand spawn (formatArgv exe t.config)
  pure (code == 0)

/-- `GaugeTask.install_plugin`. -/
def GaugeTask.install_plugin (fs : String → Bool) (which : String → Option String)
    (spawn : List String → Except String Int) (t : GaugeTask)
    (plugin_name : String) (version : Option String) : Except GaugeError Bool := do
  let exe ← findGaugeExecutable fs which t.config
  let code ← runCommand spawn (installArgv exe plugin_name version)
  pure (code == 0)

/-- `GaugeConfig.get_environment`: the ambient process environment (the
parameter `ambient`, a partial map), overlaid with `GAUGE_ROOT` when
`gauge_root` is truthy, then overlaid with `environment_variables`
(`dict.update`, which wins on collision). -/
def GaugeConfig.get_environment (ambient : String → Option String)
    (c : GaugeConfig) : String → Option String :=
  fun k =>
    match c.environment_variables.lookup k with
    | some v => some v
    | none =>
      if truthyS c.gauge_root && (k == "GAUGE_ROOT") then c.gauge_root
      else ambient k

/-- An override mapping for `create_task` / a raw `tool.gauge` section: any
subset of the `GaugeConfig` keys, each carrying the value the dict assigns. -/
structure ConfigOverride where
  specs_dir : Option (Option String) := none
  tags : Option (Option String) := none
  in_parallel : Option Bool := none
  nodes : Option Int := none
  env : Option (Option String) := none
  additional_flags : Option (Option String) := none
  project_dir : Option (Option String) := none
  gauge_root : Option (Option String) := none
  environment_variables : Option (List (String × String)) := none
  deriving Repr, DecidableEq

/-- Python truthiness of the override dict: empty (or absent) is falsy. -/
def ConfigOverride.isEmpty (o : ConfigOverride) : Bool :=
  o.specs_dir.isNone && o.tags.isNone && o.in_parallel.isNone && o.nodes.isNone
    && o.env.isNone && o.additional_flags.isNone && o.project_dir.isNone
    && o.gauge_root.isNone && o.environment_variables.isNone

/-- `config_dict = base.dict(); config_dict.update(override)`: shallow key
replacement, the override value wins wholesale for every key it carries. -/
def mergeFields (base : GaugeConfig) (o : ConfigOverride) : GaugeConfig :=
  { specs_dir := o.specs_dir.getD base.specs_dir
    tags := o.tags.getD base.tags
    in_parallel := o.in_parallel.getD base.in_parallel
    nodes := o.nodes.getD base.nodes
    env := o.env.getD base.env
    additional_flags := o.additional_flags.getD base.additional_flags
    project_dir := o.project_dir.getD base.project_dir
    gauge_root := o.gauge_root.getD base.gauge_root
    environment_variables := o.environment_variables.getD base.environment_variables }

/-- `GaugePlugin.create_task`: with a truthy override, rebuild a
`GaugeConfig` from the merged dict (re-running validation); otherwise reuse
the loaded configuration. -/
def create_task (fs : String → Bool) (base : GaugeConfig) (o : ConfigOverride) :
    Except String GaugeTask :=
  if o.isEmpty then Except.ok { config := base }
  else (mkGaugeConfig fs (mergeFields base o)).1.map (fun cfg => { config := cfg })

/-- The data the TOML loader hands back, reduced to the two places the code
reads: the `tool.gauge` table and the top-level `gauge` table. -/
structure TomlData where
  tool_gauge : Option ConfigOverride := none
  gauge : Option ConfigOverride := none

/-- `GaugePlugin._load_config`: when the configured file is truthy and
exists, load it (the parameter `tomlLoad`; its failure propagates — there is
no try/except here), take `data.get("tool", empty).get("gauge", empty)` and
construct a `GaugeConfig` from it; otherwise the default configuration. -/
def load_config (fs : String → Bool) (tomlLoad : String → Except String TomlData)
    (config_file : Option String) : Except String GaugeConfig :=
  if truthyS config_file && fs (config_file.getD "") then
    match tomlLoad (config_file.getD "") with
    | Except.error e => Except.error e
    | Except.ok data => (mkGaugeConfig fs (mergeFields {} (data.tool_gauge.getD {}))).1
  else Except.ok {}

/-- The shared body of `cli.load_config_from_file`: if the path exists, load
it inside try/except (a loader failure degrades to the empty mapping with a
warning) and pick `tool.gauge`, else top-level `gauge`, else empty. -/
def loadTomlSection (fs : String → Bool) (tomlLoad : String → Except String TomlData)
    (path : String) : ConfigOverride :=
  if fs path then
    match tomlLoad path with
    | Except.error _ => {}
    | Except.ok data =>
      match data.tool_gauge with
      | some s => s
      | none =>
        match data.gauge with
        | some s => s
        | none => {}
  else {}

/-- `cli.load_config_from_file`: an explicit path is used as given;
otherwise `pyproject.toml` then `gauge.toml` is tried. Never fails. -/
def load_config_from_file (fs : String → Bool)
    (tomlLoad : String → Except String TomlData) (config_file : Option String) :
    ConfigOverride :=
  match config_file with
  | some f => loadTomlSection fs tomlLoad f
  | none =>
    if fs "pyproject.toml" then loadTomlSection fs tomlLoad "pyproject.toml"
    else if fs "gauge.toml" then loadTomlSection fs tomlLoad "gauge.toml"
    else {}

/-- The `GaugePlugin` façade state: the configured file path and the loaded
base configuration (the only instance attributes `__init__` sets). -/
structure GaugePluginSt where
  config_file : Option String := none
  config : GaugeConfig := {}
  deriving Repr, DecidableEq

/-- `GaugePlugin.create_task` as a state transformer on the façade: the
method reads `self.config` and assigns no attribute, so the state it hands
back is the one it received. -/
def create_task_st (fs : String → Bool) (p : GaugePluginSt) (o : ConfigOverride) :
    Except String (GaugeTask × GaugePluginSt) :=
  (create_task fs p.config o).map (fun t => (t, p))

/-- C1: `to_command_args` is exactly the fixed-order concatenation of the
conditional segments, the scenario configuration yields the listed tokens,
and with `in_parallel` and `nodes = 1` the result has `--parallel` but no
`--n`. -/
theorem to_command_args_spec (c : GaugeConfig) :
    c.to_command_args = specCommandArgs c
      ∧ smokeConfig.to_command_args
          = ["--tags", "smoke", "--parallel", "--n", "4", "--env", "dev",
             "--verbose", "--simple-console", "specs"]
      ∧ (GaugeConfig.to_command_args { smokeConfig with nodes := 1 }
            = ["--tags", "smoke", "--parallel", "--env", "dev",
               "--verbose", "--simple-console", "specs"]
          ∧ "--parallel" ∈ GaugeConfig.to_command_args { smokeConfig with nodes := 1 }
          ∧ "--n" ∉ GaugeConfig.to_command_args { smokeConfig with nodes := 1 }) := by
  refine ⟨?_, by decide, by decide, by decide, by decide⟩
  unfold GaugeConfig.to_command_args specCommandArgs
  by_cases h1 : truthyS c.tags = true <;>
    by_cases h2 : c.in_parallel = true <;>
      by_cases h3 : c.nodes > 1 <;>
        by_cases h4 : truthyS c.env = true <;>
          by_cases h5 : truthyS c.additional_flags = true <;>
            by_cases h6 : truthyS c.specs_dir = true <;>
              simp [h1, h2, h3, h4, h5, h6]

/-- C3: construction fails (with the `nodes must be at least 1` error)
exactly when `nodes < 1` and succeeds exactly when `nodes ≥ 1`; a
`specs_dir` naming a missing path still constructs, producing only the
warning. -/
theorem construction_validates_nodes (fs : String → Bool) (c : GaugeConfig) :
    ((mkGaugeConfig fs c).1 = Except.error "nodes must be at least 1" ↔ c.nodes < 1)
    ∧ ((mkGaugeConfig fs c).1 = Except.ok c ↔ 1 ≤ c.nodes)
    ∧ ((mkGaugeConfig (fun _ => false) { specs_dir := some "missing" }).1
        = Except.ok { specs_dir := some "missing" }
      ∧ (mkGaugeConfig (fun _ => false) { specs_dir := some "missing" }).2
        = ["Warning: specs directory missing does not exist"]) := by
  refine ⟨?_, ?_, by decide, by decide⟩ <;>
    · unfold mkGaugeConfig
      by_cases h : c.nodes < 1 <;> simp [h] <;> omega

/-- C10: an empty string is falsy, hence treated as unset — with
`specs_dir`, `tags`, `env` or `additional_flags` equal to `""`,
`to_command_args` emits no token for the field (same result as with the
field absent, in particular no final positional token), and the validate
and format argvs are just `[executable, subcommand]`. -/
theorem empty_string_fields_unset (exe : String) (c : GaugeConfig) :
    GaugeConfig.to_command_args
        { c with specs_dir := some "", tags := some "", env := some "",
                 additional_flags := some "" }
      = GaugeConfig.to_command_args
          { c with specs_dir := none, tags := none, env := none,
                   additional_flags := none }
    ∧ GaugeConfig.to_command_args { c with specs_dir := some "" }
        = GaugeConfig.to_command_args { c with specs_dir := none }
    ∧ validateArgv exe { c with specs_dir := some "" } = [exe, "validate"]
    ∧ formatArgv exe { c with specs_dir := some "" } = [exe, "format"] := by
  refine ⟨?_, ?_, ?_, ?_⟩ <;>
    simp [GaugeConfig.to_command_args, validateArgv, formatArgv, truthyS]

/-- The membership-guarded removal of `GaugeTask.run` coincides with plain
first-occurrence removal. -/
theorem erase_if_mem (a : String) (l : List String) :
    (if a ∈ l then l.erase a else l) = l.erase a := by
  by_cases h : a ∈ l
  · rw [if_pos h]
  · rw [if_neg h, List.erase_of_not_mem h]

/-- C2: with a non-empty explicit spec list, the run argv is the base argv
`[exe, "run"] ++ to_command_args` with the first occurrence of the
`specs_dir` token removed, followed by the explicit specs; on the scenario
configuration (tags smoke, parallel 4 nodes, env dev, extra flags,
specs_dir specs) the positional tail is exactly the two specs, the token
`specs` is gone, and every derived flag keeps its original position. -/
theorem run_explicit_specs (exe : String) (c : GaugeConfig) (specs : List String)
    (h : specs ≠ []) :
    runArgv exe c specs
      = (match c.specs_dir with
         | some sd => ([exe, "run"] ++ c.to_command_args).erase sd
         | none => [exe, "run"] ++ c.to_command_args) ++ specs
    ∧ runArgv "gauge" smokeConfig ["a.spec", "b.spec"]
        = ["gauge", "run", "--tags", "smoke", "--parallel", "--n", "4",
           "--env", "dev", "--verbose", "--simple-console", "a.spec", "b.spec"]
    ∧ "specs" ∉ runArgv "gauge" smokeConfig ["a.spec", "b.spec"] := by
  refine ⟨?_, by decide, by decide⟩
  unfold runArgv
  have hne : specs.isEmpty = false := by
    cases specs with
    | nil => exact absurd rfl h
    | cons a l => rfl
  rw [hne]
  simp only [Bool.false_eq_true, if_false]
  cases hsd : c.specs_dir with
  | none => simp
  | some sd => simp only [erase_if_mem]

/-- Witness for C2 at the scenario input. -/
theorem run_explicit_specs_witness :
    (["a.spec", "b.spec"] : List String) ≠ []
    ∧ runArgv "gauge" smokeConfig ["a.spec", "b.spec"]
        = (match smokeConfig.specs_dir with
           | some sd => (["gauge", "run"] ++ smokeConfig.to_command_args).erase sd
           | none => ["gauge", "run"] ++ smokeConfig.to_command_args)
            ++ ["a.spec", "b.spec"] :=
  ⟨by decide,
   (run_explicit_specs "gauge" smokeConfig ["a.spec", "b.spec"] (by decide)).1⟩

/-- C5: executable resolution in strict order — when `gauge_root` is set
and `<gauge_root>/bin/gauge` exists, that path is returned for every search
path `which`; otherwise the result is the search-path hit when there is
one, and the `ExecutableNotFound` failure when there is none. -/
theorem find_gauge_resolution (fs : String → Bool) (which : String → Option String)
    (c : GaugeConfig) :
    (truthyS c.gauge_root = true → fs (gaugeRootPath c) = true →
        findGaugeExecutable fs which c = Except.ok (gaugeRootPath c))
    ∧ (truthyS c.gauge_root = false ∨ fs (gaugeRootPath c) = false →
        findGaugeExecutable fs which c
          = match which "gauge" with
            | some exe => Except.ok exe
            | none => Except.error (GaugeError.executableNotFound gaugeNotFoundMsg)) := by
  unfold findGaugeExecutable
  constructor
  · intro h1 h2
    simp [h1, h2]
  · intro h
    rcases h with h | h
    · simp [h]
    · by_cases hg : truthyS c.gauge_root = true <;> simp [hg, h]

/-- Witness for C5: the root hit, and the raise when nothing resolves. -/
theorem find_gauge_resolution_witness :
    findGaugeExecutable (fun _ => true) (fun _ => none)
        { gauge_root := some "/opt/gauge" }
      = Except.ok "/opt/gauge/bin/gauge"
    ∧ findGaugeExecutable (fun _ => false) (fun _ => none) {}
      = Except.error (GaugeError.executableNotFound gaugeNotFoundMsg) := by
  constructor
  · have h := (find_gauge_resolution (fun _ => true) (fun _ => none)
      { gauge_root := some "/opt/gauge" }).1 (by decide) rfl
    have hp : gaugeRootPath { gauge_root := some "/opt/gauge" } = "/opt/gauge/bin/gauge" := by
      decide
    rw [hp] at h
    exact h
  · have h := (find_gauge_resolution (fun _ => false) (fun _ => none) {}).2 (Or.inl rfl)
    simpa using h

/-- C6: once the executable resolves, each of the four operations maps a
spawned subprocess's exit code to the boolean `code == 0` and never fails on
a non-zero code, while a spawn failure alone becomes the
`ExecutionError`-style failure; concretely, validate returns true on exit
code 0 and false on exit code 1. -/
theorem subprocess_exit_to_bool (fs : String → Bool) (which : String → Option String)
    (spawn : List String → Except String Int) (t : GaugeTask) (specs : List String)
    (plugin_name : String) (version : Option String) (exe : String)
    (hexe : findGaugeExecutable fs which t.config = Except.ok exe) :
    (GaugeTask.run fs which spawn t specs
        = match spawn (runArgv exe t.config specs) with
          | Except.ok code => Except.ok (code == 0)
          | Except.error e =>
            Except.error (GaugeError.executionError ("Failed to execute command: " ++ e)))
    ∧ (GaugeTask.validate fs which spawn t
        = match spawn (validateArgv exe t.config) with
          | Except.ok code => Except.ok (code == 0)
          | Except.error e =>
            Except.error (GaugeError.executionError ("Failed to execute command: " ++ e)))
    ∧ (GaugeTask.format_specs fs which spawn t
        = match spawn (formatArgv exe t.config) with
          | Except.ok code => Except.ok (code == 0)
          | Except.error e =>
            Except.error (GaugeError.executionError ("Failed to execute command: " ++ e)))
    ∧ (GaugeTask.install_plugin fs which spawn t plugin_name version
        = match spawn (installArgv exe plugin_name version) with
          | Except.ok code => Except.ok (code == 0)
          | Except.error e =>
            Except.error (GaugeError.executionError ("Failed to execute command: " ++ e)))
    ∧ GaugeTask.validate (fun _ => false) (fun _ => some "gauge")
        (fun _ => Except.ok 0) {} = Except.ok true
    ∧ GaugeTask.validate (fun _ => false) (fun _ => some "gauge")
        (fun _ => Except.ok 1) {} = Except.ok false := by
  refine ⟨?_, ?_, ?_, ?_, by decide, by decide⟩
  · cases hsp : spawn (runArgv exe t.config specs) <;>
      simp [GaugeTask.run, hexe, runCommand, hsp, bind, Except.bind, pure, Except.pure]
  · cases hsp : spawn (validateArgv exe t.config) <;>
      simp [GaugeTask.validate, hexe, runCommand, hsp, bind, Except.bind, pure, Except.pure]
  · cases hsp : spawn (formatArgv exe t.config) <;>
      simp [GaugeTask.format_specs, hexe, runCommand, hsp, bind, Except.bind, pure, Except.pure]
  · cases hsp : spawn (installArgv exe plugin_name version) <;>
      simp [GaugeTask.install_plugin, hexe, runCommand, hsp, bind, Except.bind, pure, Except.pure]

/-- Witness for C6: with only the search path resolving, a spawn that
reports exit code 0 yields `ok true`, and a spawn failure becomes the
execution failure. -/
theorem subprocess_exit_to_bool_witness :
    GaugeTask.run (fun _ => false) (fun _ => some "gauge") (fun _ => Except.ok 0) {} []
      = Except.ok true
    ∧ GaugeTask.run (fun _ => false) (fun _ => some "gauge")
        (fun _ => Except.error "Permission denied") {} []
      = Except.error (GaugeError.executionError "Failed to execute command: Permission denied") := by
  constructor
  · have h := (subprocess_exit_to_bool (fun _ => false) (fun _ => some "gauge")
      (fun _ => Except.ok 0) {} [] "p" none "gauge" rfl).1
    simpa using h
  · have h := (subprocess_exit_to_bool (fun _ => false) (fun _ => some "gauge")
      (fun _ => Except.error "Permission denied") {} [] "p" none "gauge" rfl).1
    simpa using h

/-- C4 counterexample: with `gauge_root` unset but `GAUGE_ROOT` already in
the ambient process environment, `get_environment` still contains
`GAUGE_ROOT`, so presence of the key is not equivalent to `gauge_root`
being set. -/
theorem get_environment_gauge_root_iff_cex :
    ¬ (((GaugeConfig.get_environment
            (fun k => if k == "GAUGE_ROOT" then some "/usr/local/gauge" else none)
            ({} : GaugeConfig) "GAUGE_ROOT").isSome = true)
        ↔ truthyS ({} : GaugeConfig).gauge_root = true) := by
  decide

/-- C4 as amended: every `environment_variables` entry is present with its
exact value, overriding the `GAUGE_ROOT` overlay and the ambient map; when
`gauge_root` is set, `GAUGE_ROOT` is present (with value `gauge_root`
unless `environment_variables` overrides it); when `gauge_root` is unset,
`GAUGE_ROOT` falls through to `environment_variables` and then to the
ambient environment. -/
theorem get_environment_overlays (ambient : String → Option String)
    (c : GaugeConfig) (k v : String) :
    (c.environment_variables.lookup k = some v →
        GaugeConfig.get_environment ambient c k = some v)
    ∧ (truthyS c.gauge_root = true →
        c.environment_variables.lookup "GAUGE_ROOT" = none →
        GaugeConfig.get_environment ambient c "GAUGE_ROOT" = c.gauge_root)
    ∧ (truthyS c.gauge_root = true →
        (GaugeConfig.get_environment ambient c "GAUGE_ROOT").isSome = true)
    ∧ (truthyS c.gauge_root = false →
        GaugeConfig.get_environment ambient c "GAUGE_ROOT"
          = match c.environment_variables.lookup "GAUGE_ROOT" with
            | some v2 => some v2
            | none => ambient "GAUGE_ROOT") := by
  unfold GaugeConfig.get_environment
  refine ⟨?_, ?_, ?_, ?_⟩
  · intro h; rw [h]
  · intro hg hl; rw [hl]; simp [hg]
  · intro hg
    cases hl : c.environment_variables.lookup "GAUGE_ROOT" with
    | some w => simp [hl]
    | none =>
      cases hgr : c.gauge_root with
      | none => rw [hgr] at hg; simp [truthyS] at hg
      | some s => rw [hgr] at hg; simp [hl, hgr, hg]
  · intro hg
    cases hl : c.environment_variables.lookup "GAUGE_ROOT" with
    | some w => simp [hl]
    | none => simp [hl, hg]

/-- Witness for C4 (amended) at a concrete configuration and ambient map. -/
theorem get_environment_overlays_witness :
    GaugeConfig.get_environment (fun _ => none)
        { gauge_root := some "/opt/gauge", environment_variables := [("FOO", "bar")] }
        "FOO" = some "bar"
    ∧ GaugeConfig.get_environment (fun _ => none)
        { gauge_root := some "/opt/gauge", environment_variables := [("FOO", "bar")] }
        "GAUGE_ROOT" = some "/opt/gauge" := by
  constructor
  · exact (get_environment_overlays (fun _ => none)
      { gauge_root := some "/opt/gauge", environment_variables := [("FOO", "bar")] }
      "FOO" "bar").1 (by decide)
  · have h := (get_environment_overlays (fun _ => none)
      { gauge_root := some "/opt/gauge", environment_variables := [("FOO", "bar")] }
      "GAUGE_ROOT" "bar").2.1 (by decide) (by decide)
    simpa using h

/-- C7: a truthy override produces a configuration that takes the override
value for every key the override carries (with `environment_variables`
replaced wholesale, exactly as `mergeFields` states) and the base value
elsewhere; an empty override hands back the loaded configuration itself. -/
theorem create_task_merge (fs : String → Bool) (base : GaugeConfig)
    (o : ConfigOverride) (t : GaugeTask) :
    (create_task fs base o = Except.ok t → o.isEmpty = false →
        t.config = mergeFields base o)
    ∧ (o.isEmpty = true → create_task fs base o = Except.ok { config := base }) := by
  unfold create_task
  constructor
  · intro hok hne
    rw [hne] at hok
    simp only [Bool.false_eq_true, if_false] at hok
    unfold mkGaugeConfig at hok
    by_cases hn : (mergeFields base o).nodes < 1
    · simp [hn, Except.map] at hok
    · simp [hn, Except.map] at hok
      rw [← hok]
  · intro he
    rw [he]
    simp

/-- Witness for C7: a two-key override merged onto the default base, and
the empty override reusing the base. -/
theorem create_task_merge_witness :
    create_task (fun _ => true) {}
        { tags := some (some "x"), environment_variables := some [("A", "1")] }
      = Except.ok { config := { tags := some "x", environment_variables := [("A", "1")] } }
    ∧ (GaugeTask.mk { tags := some "x", environment_variables := [("A", "1")] }).config
        = mergeFields {}
            { tags := some (some "x"), environment_variables := some [("A", "1")] }
    ∧ create_task (fun _ => true) {} {} = Except.ok { config := ({} : GaugeConfig) } := by
  refine ⟨by decide, ?_, ?_⟩
  · exact (create_task_merge (fun _ => true) {} _ _).1 (by decide) (by decide)
  · exact (create_task_merge (fun _ => true) {} {} { config := {} }).2 rfl

/-- C8 counterexample: a malformed configuration file makes the façade's
load fail — `GaugePlugin._load_config` has no exception handling, so the
loader failure propagates instead of degrading to the default
configuration. -/
theorem load_config_malformed_cex :
    load_config (fun _ => true) (fun _ => Except.error "malformed document")
        (some "pyproject.toml")
      = Except.error "malformed document"
    ∧ load_config (fun _ => true) (fun _ => Except.error "malformed document")
        (some "pyproject.toml")
      ≠ Except.ok ({} : GaugeConfig) := by
  decide

/-- C8 as amended: an absent (or unset) file and a missing `tool.gauge`
section degrade to the default configuration at the façade without error;
a malformed file degrades (to the empty mapping, with a warning) only in
the CLI-layer loader `load_config_from_file`. -/
theorem load_config_degrades (fs : String → Bool)
    (tomlLoad : String → Except String TomlData) (cf : Option String)
    (f : String) (data : TomlData) :
    (truthyS cf = false ∨ fs (cf.getD "") = false →
        load_config fs tomlLoad cf = Except.ok {})
    ∧ (fs f = true → (f == "") = false → tomlLoad f = Except.ok data →
        data.tool_gauge = none → load_config fs tomlLoad (some f) = Except.ok {})
    ∧ load_config_from_file (fun _ => true) (fun _ => Except.error "malformed document")
        (some f) = {} := by
  refine ⟨?_, ?_, ?_⟩
  · intro h
    unfold load_config
    rcases h with h | h
    · simp [h]
    · by_cases ht : truthyS cf = true <;> simp [ht, h]
  · intro hf hne hl hsec
    unfold load_config
    simp [truthyS, hne, hf, hl, hsec]
    rfl
  · unfold load_config_from_file loadTomlSection
    simp

/-- Witness for C8 (amended): a file that does not exist, and a loaded file
whose mapping has a top-level `gauge` table but no `tool.gauge` section. -/
theorem load_config_degrades_witness :
    load_config (fun _ => false) (fun _ => Except.ok {}) (some "pyproject.toml")
      = Except.ok {}
    ∧ load_config (fun _ => true)
        (fun _ => Except.ok { gauge := some { nodes := some 5 } })
        (some "pyproject.toml")
      = Except.ok {} := by
  constructor
  · exact (load_config_degrades (fun _ => false) (fun _ => Except.ok {})
      (some "pyproject.toml") "x" {}).1 (Or.inr rfl)
  · exact (load_config_degrades (fun _ => true)
      (fun _ => Except.ok { gauge := some { nodes := some 5 } }) none
      "pyproject.toml" { gauge := some { nodes := some 5 } }).2.1 rfl rfl rfl rfl

/-- C9: `create_task` reads the façade's configuration and assigns nothing,
so whenever it succeeds the façade state it hands back is field-for-field
the one it received (in particular `environment_variables` of the loaded
base configuration is untouched); the merged configuration is a fresh
value. -/
theorem create_task_preserves_facade (fs : String → Bool) (p : GaugePluginSt)
    (o : ConfigOverride) (t : GaugeTask) (p2 : GaugePluginSt)
    (h : create_task_st fs p o = Except.ok (t, p2)) :
    p2 = p ∧ p2.config = p.config
      ∧ p2.config.environment_variables = p.config.environment_variables := by
  unfold create_task_st at h
  cases hc : create_task fs p.config o with
  | error e => rw [hc] at h; simp [Except.map] at h
  | ok t2 =>
    rw [hc] at h
    simp [Except.map] at h
    rcases h with ⟨h1, h2⟩
    subst h2
    exact ⟨rfl, rfl, rfl⟩

/-- Witness for C9: a concrete override applied through the state-passing
façade leaves the stored configuration as it was. -/
theorem create_task_preserves_facade_witness :
    create_task_st (fun _ => true) { config := { tags := some "smoke" } }
        { nodes := some 3 }
      = Except.ok ({ config := { tags := some "smoke", nodes := 3 } },
          { config := { tags := some "smoke" } })
    ∧ ({ config := { tags := some "smoke" } } : GaugePluginSt).config
        = { tags := some "smoke" } := by
  refine ⟨by decide, ?_⟩
  have h := (create_task_preserves_facade (fun _ => true)
    { config := { tags := some "smoke" } } { nodes := some 3 }
    { config := { tags := some "smoke", nodes := 3 } }
    { config := { tags := some "smoke" } } (by decide)).2.1
  exact h

end GaugePlugin
